import Mathlib

/-!
Shallow embedding of the wallet/signer configuration core of the
plugin-aimo-router repository.

The embedded code comes from two files:
* the signer module (validateSvmPrivateKey, validateEvmPrivateKey,
  validateWalletConfig, getChainIdForWallet, createSvmSigner,
  createEvmSigner, createSignerFromConfig);
* src/utils/config.ts (getSetting, getWalletType, getPrivateKey,
  getChainId, getSignerConfig).

JavaScript conventions are made explicit:
* a value of type `string | undefined` is an `Option String`, with `none`
  standing for `undefined`;
* JavaScript truthiness on such a value (`!x`) is the predicate `jsFalsy`,
  true exactly on `undefined` and the empty string;
* a function that can throw returns `Except SignerError _`;
* the runtime settings store returns `string | number | boolean |
  undefined | null`, embedded as `Option JsValue` with `none` for
  `undefined` and a dedicated `jsNull` constructor for `null`.
-/

namespace AimoRouter

/-! ## Base58 decoding (the bs58 library used by the signer module) -/

/-- The Bitcoin base58 alphabet used by the bs58 package. -/
def BASE58_ALPHABET : List Char :=
  "123456789ABCDEFGHJKLMNPQRSTUVWXYZabcdefghijkmnopqrstuvwxyz".data

/-- Index of a character in an alphabet, `none` if it does not occur. -/
def indexInAlphabet (c : Char) : List Char → Option Nat
  | [] => none
  | d :: ds => if d = c then some 0 else (indexInAlphabet c ds).map (· + 1)

/-- Value of one base58 digit; `none` on a character outside the alphabet. -/
def b58DigitValue (c : Char) : Option Nat := indexInAlphabet c BASE58_ALPHABET

/-- Big-endian base-256 digits of a natural number, with an explicit fuel
argument so that the kernel can evaluate it. -/
def natToBytesBEAux : Nat → Nat → List Nat
  | 0, _ => []
  | fuel + 1, n => if n = 0 then [] else natToBytesBEAux fuel (n / 256) ++ [n % 256]

/-- Big-endian base-256 digits of a natural number (empty for zero),
matching the byte output of the base-x decoding loop. -/
def natToBytesBE (n : Nat) : List Nat := natToBytesBEAux n n

/-- Number of leading zero digits of a digit list. -/
def leadingZeros : List Nat → Nat
  | [] => 0
  | d :: ds => if d = 0 then leadingZeros ds + 1 else 0

/-- bs58.decode: every character must be in the alphabet (otherwise the
library throws, here `none`); each leading '1' contributes one zero byte
and the remaining digits form one big base-58 number written out in
base-256 big-endian. -/
def bs58Decode (s : String) : Option (List Nat) := do
  let digits ← s.data.mapM b58DigitValue
  let zeroes := leadingZeros digits
  let n := digits.foldl (fun acc d => acc * 58 + d) 0
  pure (List.replicate zeroes 0 ++ natToBytesBE n)

/-! ## Key format validators (signer module) -/

/-- validateSvmPrivateKey: try to base58-decode the key, valid iff the
decoded length is exactly 64 bytes; a decode failure is caught and
yields false. -/
def validateSvmPrivateKey (privateKey : String) : Bool :=
  match bs58Decode privateKey with
  | some decoded => decoded.length == 64
  | none => false

/-- One hexadecimal character, matching the regex class [0-9a-fA-F]. -/
def isHexDigit (c : Char) : Bool :=
  c.isDigit || ('a' ≤ c && c ≤ 'f') || ('A' ≤ c && c ≤ 'F')

/-- validateEvmPrivateKey: the test of the regex ^0x[0-9a-fA-F]\x7b64\x7d$,
i.e. total length 66, first two characters "0x", remaining 64 characters
hexadecimal. -/
def validateEvmPrivateKey (privateKey : String) : Bool :=
  privateKey.data.length == 66 &&
    privateKey.data.take 2 == ['0', 'x'] &&
    (privateKey.data.drop 2).all isHexDigit

/-- validateWalletConfig: dispatch on the wallet type string; any value
other than "svm" or "evm" is invalid. -/
def validateWalletConfig (walletType : String) (privateKey : String) : Bool :=
  if walletType = "svm" then validateSvmPrivateKey privateKey
  else if walletType = "evm" then validateEvmPrivateKey privateKey
  else false

/-! ## Chain-id resolution (signer module) -/

/-- Modelled from the spec: the Solana mainnet chain identifier constant
imported from the external package of the SVM signer; the spec only calls
it "the mainnet constant", the CAIP-2 mainnet value is used here. -/
def SOLANA_MAINNET_CHAIN_ID : String := "solana:5eykt4UsFv8P8NJdTREpY1vzqKqZKvdp"

/-- Modelled from the spec: the Solana devnet chain identifier constant
imported from the external package of the SVM signer. -/
def SOLANA_DEVNET_CHAIN_ID : String := "solana:EtWTRABZaYq6iMfeYKouRu166VU2xqa1"

/-- Modelled from the spec: the EVM mainnet chain identifier constant
imported from the external package of the EVM signer; the spec only calls
it "the EVM mainnet constant", the CAIP-2 mainnet value is used here.
The claims only need it to differ from the Sepolia literal below. -/
def EVM_MAINNET_CHAIN_ID : String := "eip155:1"

/-- The Sepolia chain identifier, a string literal in the source. -/
def SEPOLIA_CHAIN_ID : String := "eip155:11155111"

/-- JavaScript toLowerCase restricted to the ASCII range (all inputs the
code compares against are ASCII). -/
def toLowerString (s : String) : String := String.mk (s.data.map Char.toLower)

/-- Whether the pattern occurs as a contiguous run of the list
(JavaScript String.prototype.includes on the character lists). -/
def hasSubstrAux (pat : List Char) : List Char → Bool
  | [] => pat.isEmpty
  | c :: rest => pat.isPrefixOf (c :: rest) || hasSubstrAux pat rest

/-- JavaScript s.includes(pat). -/
def containsSubstr (s pat : String) : Bool := hasSubstrAux pat.data s.data

/-- The errors thrown by the signer module, one constructor per throw
site; `bs58DecodeFailure` is the exception the bs58 library would raise
out of createSvmSigner. -/
inductive SignerError where
  | missingWalletType
  | missingPrivateKey
  | invalidKeyFormat (walletType : String)
  | unknownWalletType (walletType : String)
  | bs58DecodeFailure
  deriving DecidableEq

/-- The expected-format description interpolated into the invalid-key
error message. -/
def expectedFormatDescription (walletType : String) : String :=
  if walletType = "svm" then "base58 encoded (64 bytes when decoded)"
  else "hex string starting with 0x (64 hex characters)"

/-- The exact message strings of the thrown errors. -/
def errorMessage : SignerError → String
  | .missingWalletType => "Wallet type is required (svm or evm)"
  | .missingPrivateKey => "Private key is required"
  | .invalidKeyFormat wt =>
      "Invalid private key format for " ++ wt ++ " wallet. Expected: " ++
        expectedFormatDescription wt
  | .unknownWalletType wt => "Unknown wallet type: " ++ wt
  | .bs58DecodeFailure => "Non-base58 character"

/-- getChainIdForWallet: lowercase the input; for svm a "devnet" substring
selects devnet, anything else mainnet; for evm a "sepolia" substring or
exact equality with "11155111" selects Sepolia, anything else mainnet;
any other wallet type throws. -/
def getChainIdForWallet (walletType : String) (chainIdString : String) :
    Except SignerError String :=
  let lowerChain := toLowerString chainIdString
  if walletType = "svm" then
    if containsSubstr lowerChain "devnet" then .ok SOLANA_DEVNET_CHAIN_ID
    else .ok SOLANA_MAINNET_CHAIN_ID
  else if walletType = "evm" then
    if containsSubstr lowerChain "sepolia" || chainIdString == "11155111" then
      .ok SEPOLIA_CHAIN_ID
    else .ok EVM_MAINNET_CHAIN_ID
  else .error (.unknownWalletType walletType)

/-! ## Signer construction (signer module) -/

/-- The constructed signer object: the SVM variant wraps the decoded key
bytes, the EVM variant the raw hex key; both carry the chain id actually
attached (the family mainnet when none was supplied). -/
inductive Signer where
  | svm (privateKeyBytes : List Nat) (chainId : String)
  | evm (privateKey : String) (chainId : String)
  deriving DecidableEq

/-- createSvmSigner: base58-decode the key (the library would throw on a
bad key, hence `Option`) and wrap it, defaulting the chain id to Solana
mainnet. -/
def createSvmSigner (privateKey : String) (chainId : Option String) : Option Signer :=
  (bs58Decode privateKey).map
    (fun bytes => Signer.svm bytes (chainId.getD SOLANA_MAINNET_CHAIN_ID))

/-- createEvmSigner: wrap the raw hex key, defaulting the chain id to EVM
mainnet. -/
def createEvmSigner (privateKey : String) (chainId : Option String) : Signer :=
  Signer.evm privateKey (chainId.getD EVM_MAINNET_CHAIN_ID)

/-- The SignerConfig value object. In TypeScript walletType and privateKey
are typed as present, but createSignerFromConfig defends against absent
runtime values, so both are embedded as options. -/
structure SignerConfig where
  walletType : Option String
  privateKey : Option String
  chainId : Option String
  deriving DecidableEq

/-- JavaScript falsiness of a `string | undefined` value: `undefined` and
the empty string are the only falsy cases. -/
def jsFalsy : Option String → Bool
  | none => true
  | some s => s == ""

/-- createSignerFromConfig: reject a falsy wallet type, then a falsy
private key, then an invalid key format; resolve the chain id only when a
truthy chain id string was supplied (an exception from the resolver
propagates); finally dispatch on the wallet type to the family
constructor, with a trailing unknown-wallet-type throw. -/
def createSignerFromConfig (config : SignerConfig) : Except SignerError Signer :=
  if jsFalsy config.walletType then .error .missingWalletType
  else if jsFalsy config.privateKey then .error .missingPrivateKey
  else
    let walletType := config.walletType.getD ""
    let privateKey := config.privateKey.getD ""
    if !validateWalletConfig walletType privateKey then
      .error (.invalidKeyFormat walletType)
    else
      match (if jsFalsy config.chainId then Except.ok none
             else Except.map some
               (getChainIdForWallet walletType (config.chainId.getD ""))) with
      | .error e => .error e
      | .ok chainId =>
        if walletType = "svm" then
          match createSvmSigner privateKey chainId with
          | some signer => .ok signer
          | none => .error .bs58DecodeFailure
        else if walletType = "evm" then
          .ok (createEvmSigner privateKey chainId)
        else .error (.unknownWalletType walletType)

/-- Whether a result of createSignerFromConfig is the unknown-wallet-type
error. -/
def isUnknownWalletTypeError : Except SignerError Signer → Bool
  | .error (.unknownWalletType _) => true
  | _ => false

/-! ## Configuration resolution (src/utils/config.ts) -/

/-- A value the runtime settings store can return besides `undefined`:
`null`, a string, a number (numbers are embedded as integers, carrying
the same decimal string representation that String(value) produces), or
a boolean. -/
inductive JsValue where
  | jsNull
  | str (s : String)
  | num (n : Int)
  | bool (b : Bool)
  deriving DecidableEq

/-- JavaScript String(value) on a settings-store value. -/
def jsToString : JsValue → String
  | .jsNull => "null"
  | .str s => s
  | .num n => toString n
  | .bool b => if b then "true" else "false"

/-- The ambient state getSetting reads: the runtime settings store and the
process environment. -/
structure RuntimeState where
  settings : String → Option JsValue
  env : String → Option String

/-- getSetting: if the store value is neither undefined nor null, return
its string coercion; otherwise the environment variable of the same name
if present (nullish coalescing), otherwise the default. -/
def getSetting (runtime : RuntimeState) (key : String)
    (defaultValue : Option String) : Option String :=
  match runtime.settings key with
  | some v =>
    if v = JsValue.jsNull then
      match runtime.env key with
      | some s => some s
      | none => defaultValue
    else some (jsToString v)
  | none =>
    match runtime.env key with
    | some s => some s
    | none => defaultValue

/-- getWalletType: the resolved AIMO_WALLET_TYPE setting, but only when it
is exactly "svm" or "evm". -/
def getWalletType (runtime : RuntimeState) : Option String :=
  let walletType := getSetting runtime "AIMO_WALLET_TYPE" none
  if jsFalsy walletType ∨ (walletType ≠ some "svm" ∧ walletType ≠ some "evm") then
    none
  else walletType

/-- getPrivateKey: the resolved AIMO_PRIVATE_KEY setting. -/
def getPrivateKey (runtime : RuntimeState) : Option String :=
  getSetting runtime "AIMO_PRIVATE_KEY" none

/-- getChainId: the resolved AIMO_CHAIN_ID setting, with a falsy value
(absent or empty) normalized to undefined by the trailing
`|| undefined`. -/
def getChainId (runtime : RuntimeState) : Option String :=
  let chainId := getSetting runtime "AIMO_CHAIN_ID" none
  if jsFalsy chainId then none else chainId

/-- getSignerConfig: undefined when the resolved wallet type or private
key is falsy, otherwise the three resolved values packed unvalidated. -/
def getSignerConfig (runtime : RuntimeState) : Option SignerConfig :=
  let walletType := getWalletType runtime
  let privateKey := getPrivateKey runtime
  let chainId := getChainId runtime
  if jsFalsy walletType ∨ jsFalsy privateKey then none
  else some { walletType := walletType, privateKey := privateKey, chainId := chainId }

/-! ## Sample runtime states used to instantiate the general theorems -/

/-- A runtime whose wallet type is evm and whose private key is present
but malformed. -/
def sampleRuntimeBadKey : RuntimeState where
  settings := fun key =>
    if key = "AIMO_WALLET_TYPE" then some (JsValue.str "evm")
    else if key = "AIMO_PRIVATE_KEY" then some (JsValue.str "not-a-valid-key")
    else none
  env := fun _ => none

/-- A runtime whose wallet type setting is the unrecognized string
"evmx". -/
def sampleRuntimeBadType : RuntimeState where
  settings := fun key =>
    if key = "AIMO_WALLET_TYPE" then some (JsValue.str "evmx") else none
  env := fun _ => none

/-- A runtime with a valid svm wallet type setting. -/
def sampleRuntimeSvmType : RuntimeState where
  settings := fun key =>
    if key = "AIMO_WALLET_TYPE" then some (JsValue.str "svm") else none
  env := fun _ => none

/-- A runtime whose chain id setting is the empty string. -/
def sampleRuntimeChainEmpty : RuntimeState where
  settings := fun key =>
    if key = "AIMO_WALLET_TYPE" then some (JsValue.str "svm")
    else if key = "AIMO_PRIVATE_KEY" then some (JsValue.str "anykey")
    else if key = "AIMO_CHAIN_ID" then some (JsValue.str "")
    else none
  env := fun _ => none

/-- A runtime whose chain id setting is "devnet". -/
def sampleRuntimeChainDevnet : RuntimeState where
  settings := fun key =>
    if key = "AIMO_WALLET_TYPE" then some (JsValue.str "svm")
    else if key = "AIMO_PRIVATE_KEY" then some (JsValue.str "anykey")
    else if key = "AIMO_CHAIN_ID" then some (JsValue.str "devnet")
    else none
  env := fun _ => none

/-! ## Helper lemmas -/

theorem data_append (s t : String) : (s ++ t).data = s.data ++ t.data := rfl

theorem string_ext {s t : String} (h : s.data = t.data) : s = t := by
  cases s; cases t; exact congrArg String.mk h

theorem isPrefixOf_append_self (l t : List Char) : l.isPrefixOf (l ++ t) = true := by
  induction l with
  | nil => cases t <;> rfl
  | cons c cs ih => simp [List.isPrefixOf, ih]

theorem hasSubstrAux_cons (pat : List Char) (c : Char) (l : List Char)
    (h : hasSubstrAux pat l = true) : hasSubstrAux pat (c :: l) = true := by
  simp [hasSubstrAux, h]

theorem hasSubstrAux_self_append (pat suf : List Char) :
    hasSubstrAux pat (pat ++ suf) = true := by
  cases pat with
  | nil =>
    cases suf with
    | nil => rfl
    | cons c rest => simp [hasSubstrAux, List.isPrefixOf]
  | cons p ps =>
    have h1 : List.isPrefixOf (p :: ps) ((p :: ps) ++ suf) = true :=
      isPrefixOf_append_self _ _
    calc hasSubstrAux (p :: ps) ((p :: ps) ++ suf)
        = (List.isPrefixOf (p :: ps) ((p :: ps) ++ suf) ||
            hasSubstrAux (p :: ps) (ps ++ suf)) := rfl
      _ = true := by rw [h1]; exact Bool.true_or _

theorem hasSubstrAux_append_left (pat pre l : List Char)
    (h : hasSubstrAux pat l = true) : hasSubstrAux pat (pre ++ l) = true := by
  induction pre with
  | nil => exact h
  | cons c cs ih => exact hasSubstrAux_cons pat c (cs ++ l) ih

theorem hasSubstrAux_self (pat : List Char) : hasSubstrAux pat pat = true := by
  have h := hasSubstrAux_self_append pat []
  simpa using h

theorem invalidKeyFormat_message_data (wt : String) :
    (errorMessage (SignerError.invalidKeyFormat wt)).data =
      "Invalid private key format for ".data ++
        (wt.data ++ (" wallet. Expected: ".data ++ (expectedFormatDescription wt).data)) := by
  simp [errorMessage, data_append, List.append_assoc]

theorem invalidKeyFormat_message_walletType (wt : String) :
    containsSubstr (errorMessage (SignerError.invalidKeyFormat wt)) wt = true := by
  unfold containsSubstr
  rw [invalidKeyFormat_message_data]
  exact hasSubstrAux_append_left _ _ _ (hasSubstrAux_self_append _ _)

theorem invalidKeyFormat_message_format (wt : String) :
    containsSubstr (errorMessage (SignerError.invalidKeyFormat wt))
      (expectedFormatDescription wt) = true := by
  unfold containsSubstr
  rw [invalidKeyFormat_message_data]
  exact hasSubstrAux_append_left _ _ _
    (hasSubstrAux_append_left _ _ _
      (hasSubstrAux_append_left _ _ _ (hasSubstrAux_self _)))

theorem validateWalletConfig_walletType (walletType privateKey : String)
    (h : validateWalletConfig walletType privateKey = true) :
    walletType = "svm" ∨ walletType = "evm" := by
  unfold validateWalletConfig at h
  split at h
  · next h1 => exact Or.inl h1
  · split at h
    · next h2 => exact Or.inr h2
    · simp at h

theorem getChainIdForWallet_known (walletType s : String)
    (h : walletType = "svm" ∨ walletType = "evm") :
    ∃ c, getChainIdForWallet walletType s = Except.ok c := by
  rcases h with h | h <;> subst h
  · cases hc : containsSubstr (toLowerString s) "devnet"
    · exact ⟨SOLANA_MAINNET_CHAIN_ID, by simp [getChainIdForWallet, hc]⟩
    · exact ⟨SOLANA_DEVNET_CHAIN_ID, by simp [getChainIdForWallet, hc]⟩
  · cases hc : (containsSubstr (toLowerString s) "sepolia" || s == "11155111")
    · exact ⟨EVM_MAINNET_CHAIN_ID, by simp [getChainIdForWallet, hc]⟩
    · exact ⟨SEPOLIA_CHAIN_ID, by simp [getChainIdForWallet, hc]⟩

/-! ## Claim theorems -/

/-- C3: validateSvmPrivateKey never throws (it is a total Boolean
function); it returns true exactly when the key base58-decodes and the
decoded byte length is 64, and any decode failure yields false. -/
theorem validateSvmPrivateKey_spec (s : String) :
    (validateSvmPrivateKey s = true ↔ ∃ b, bs58Decode s = some b ∧ b.length = 64) ∧
    (bs58Decode s = none → validateSvmPrivateKey s = false) := by
  constructor
  · cases h : bs58Decode s with
    | none => simp [validateSvmPrivateKey, h]
    | some b => simp [validateSvmPrivateKey, h]
  · intro h
    simp [validateSvmPrivateKey, h]

theorem validateSvmPrivateKey_spec_witness :
    bs58Decode "0" = none ∧ validateSvmPrivateKey "0" = false :=
  ⟨by decide, (validateSvmPrivateKey_spec "0").2 (by decide)⟩

/-- C4: validateEvmPrivateKey accepts exactly the strings of the form
"0x" followed by 64 hexadecimal characters; any string missing the
prefix, of the wrong length, or containing a non-hex character is
rejected. -/
theorem validateEvmPrivateKey_spec (s : String) :
    validateEvmPrivateKey s = true ↔
      ∃ t : String, s = "0x" ++ t ∧ t.length = 64 ∧ t.data.all isHexDigit = true := by
  constructor
  · intro h
    unfold validateEvmPrivateKey at h
    simp only [Bool.and_eq_true, beq_iff_eq] at h
    obtain ⟨⟨hlen, htake⟩, hall⟩ := h
    refine ⟨String.mk (s.data.drop 2), ?_, ?_, hall⟩
    · apply string_ext
      show s.data = ['0', 'x'] ++ s.data.drop 2
      rw [← htake]
      exact (List.take_append_drop 2 s.data).symm
    · show (s.data.drop 2).length = 64
      rw [List.length_drop, hlen]
  · rintro ⟨t, rfl, hlen, hall⟩
    have hdata : ("0x" ++ t).data = '0' :: 'x' :: t.data := rfl
    have hlen2 : t.data.length = 64 := hlen
    unfold validateEvmPrivateKey
    rw [hdata]
    simp [hlen2, hall]

/-- C1 counterexample: the input "eip155:11155111" neither contains
"sepolia" after lowercasing nor equals the literal "11155111", so
getChainIdForWallet sends it to the EVM mainnet constant, which differs
from the Sepolia identifier the claim asserts. -/
theorem getChainIdForWallet_evm_eip155_counterexample :
    getChainIdForWallet "evm" "eip155:11155111" = Except.ok EVM_MAINNET_CHAIN_ID ∧
    (EVM_MAINNET_CHAIN_ID == SEPOLIA_CHAIN_ID) = false :=
  ⟨rfl, rfl⟩

/-- C1 (amended): for the evm wallet type, a chain id string whose
lowercase form contains "sepolia" or which equals the literal "11155111"
resolves to the Sepolia identifier and every other string resolves to the
EVM mainnet constant; in particular "11155111" and "Sepolia-test" resolve
to Sepolia, while "eip155:11155111", "mainnet" and "" resolve to the EVM
mainnet constant. -/
theorem getChainIdForWallet_evm_spec :
    (∀ s : String,
      (containsSubstr (toLowerString s) "sepolia" = true ∨ s = "11155111") →
        getChainIdForWallet "evm" s = Except.ok SEPOLIA_CHAIN_ID) ∧
    (∀ s : String, containsSubstr (toLowerString s) "sepolia" = false →
      (s == "11155111") = false →
        getChainIdForWallet "evm" s = Except.ok EVM_MAINNET_CHAIN_ID) ∧
    getChainIdForWallet "evm" "11155111" = Except.ok SEPOLIA_CHAIN_ID ∧
    getChainIdForWallet "evm" "Sepolia-test" = Except.ok SEPOLIA_CHAIN_ID ∧
    getChainIdForWallet "evm" "eip155:11155111" = Except.ok EVM_MAINNET_CHAIN_ID ∧
    getChainIdForWallet "evm" "mainnet" = Except.ok EVM_MAINNET_CHAIN_ID ∧
    getChainIdForWallet "evm" "" = Except.ok EVM_MAINNET_CHAIN_ID := by
  refine ⟨?_, ?_, rfl, rfl, rfl, rfl, rfl⟩
  · intro s h
    rcases h with h | h
    · simp [getChainIdForWallet, h]
    · subst h; simp [getChainIdForWallet]
  · intro s h1 h2
    simp [getChainIdForWallet, h1, h2]

theorem getChainIdForWallet_evm_spec_witness :
    (containsSubstr (toLowerString "Sepolia-test") "sepolia" = true ∨
      ("Sepolia-test" : String) = "11155111") ∧
    getChainIdForWallet "evm" "Sepolia-test" = Except.ok SEPOLIA_CHAIN_ID ∧
    containsSubstr (toLowerString "mainnet") "sepolia" = false ∧
    getChainIdForWallet "evm" "mainnet" = Except.ok EVM_MAINNET_CHAIN_ID :=
  ⟨Or.inl (by decide),
   getChainIdForWallet_evm_spec.1 "Sepolia-test" (Or.inl (by decide)),
   by decide,
   getChainIdForWallet_evm_spec.2.1 "mainnet" (by decide) (by decide)⟩

/-- C5: for the svm wallet type, a chain id string whose lowercase form
contains "devnet" resolves to the Solana devnet constant and every other
string resolves to the Solana mainnet constant; in particular "devnet"
resolves to devnet while "mainnet", "" and "testnet" resolve to mainnet
(there is no testnet branch). -/
theorem getChainIdForWallet_svm_spec :
    (∀ s : String, containsSubstr (toLowerString s) "devnet" = true →
        getChainIdForWallet "svm" s = Except.ok SOLANA_DEVNET_CHAIN_ID) ∧
    (∀ s : String, containsSubstr (toLowerString s) "devnet" = false →
        getChainIdForWallet "svm" s = Except.ok SOLANA_MAINNET_CHAIN_ID) ∧
    getChainIdForWallet "svm" "devnet" = Except.ok SOLANA_DEVNET_CHAIN_ID ∧
    getChainIdForWallet "svm" "mainnet" = Except.ok SOLANA_MAINNET_CHAIN_ID ∧
    getChainIdForWallet "svm" "" = Except.ok SOLANA_MAINNET_CHAIN_ID ∧
    getChainIdForWallet "svm" "testnet" = Except.ok SOLANA_MAINNET_CHAIN_ID := by
  refine ⟨?_, ?_, rfl, rfl, rfl, rfl⟩
  · intro s h
    simp [getChainIdForWallet, h]
  · intro s h
    simp [getChainIdForWallet, h]

/-- C2: createSignerFromConfig fails with the missing-wallet-type error
when the wallet type is absent (falsy), else with the missing-private-key
error when the private key is absent (falsy), else with the
invalid-key-format error, whose message names the wallet type and the
expected format description, when validateWalletConfig rejects the pair;
a signer is returned only when all three checks pass, so every failure
happens before a signer is constructed. -/
theorem createSignerFromConfig_spec (config : SignerConfig) :
    (jsFalsy config.walletType = true →
        createSignerFromConfig config = Except.error SignerError.missingWalletType) ∧
    (jsFalsy config.walletType = false → jsFalsy config.privateKey = true →
        createSignerFromConfig config = Except.error SignerError.missingPrivateKey) ∧
    (jsFalsy config.walletType = false → jsFalsy config.privateKey = false →
      validateWalletConfig (config.walletType.getD "") (config.privateKey.getD "") = false →
        createSignerFromConfig config =
          Except.error (SignerError.invalidKeyFormat (config.walletType.getD "")) ∧
        containsSubstr
          (errorMessage (SignerError.invalidKeyFormat (config.walletType.getD "")))
          (config.walletType.getD "") = true ∧
        containsSubstr
          (errorMessage (SignerError.invalidKeyFormat (config.walletType.getD "")))
          (expectedFormatDescription (config.walletType.getD "")) = true) ∧
    (∀ signer, createSignerFromConfig config = Except.ok signer →
        jsFalsy config.walletType = false ∧ jsFalsy config.privateKey = false ∧
        validateWalletConfig (config.walletType.getD "") (config.privateKey.getD "") = true) := by
  refine ⟨?_, ?_, ?_, ?_⟩
  · intro h
    simp [createSignerFromConfig, h]
  · intro h1 h2
    simp [createSignerFromConfig, h1, h2]
  · intro h1 h2 h3
    exact ⟨by simp [createSignerFromConfig, h1, h2, h3],
      invalidKeyFormat_message_walletType _, invalidKeyFormat_message_format _⟩
  · intro signer h
    cases hwt : jsFalsy config.walletType with
    | true => simp [createSignerFromConfig, hwt] at h
    | false =>
      cases hpk : jsFalsy config.privateKey with
      | true => simp [createSignerFromConfig, hwt, hpk] at h
      | false =>
        cases hval : validateWalletConfig (config.walletType.getD "")
            (config.privateKey.getD "") with
        | false => simp [createSignerFromConfig, hwt, hpk, hval] at h
        | true => exact ⟨rfl, rfl, rfl⟩

theorem createSignerFromConfig_spec_witness :
    createSignerFromConfig ⟨none, some "x", none⟩ =
      Except.error SignerError.missingWalletType ∧
    createSignerFromConfig ⟨some "svm", none, none⟩ =
      Except.error SignerError.missingPrivateKey ∧
    createSignerFromConfig ⟨some "evm", some "0xdeadbeef", none⟩ =
      Except.error (SignerError.invalidKeyFormat "evm") ∧
    validateWalletConfig "evm"
      "0xaaaaaaaaaaaaaaaaaaaaaaaaaaaaaaaaaaaaaaaaaaaaaaaaaaaaaaaaaaaaaaaa" = true :=
  ⟨(createSignerFromConfig_spec ⟨none, some "x", none⟩).1 rfl,
   (createSignerFromConfig_spec ⟨some "svm", none, none⟩).2.1 rfl rfl,
   ((createSignerFromConfig_spec ⟨some "evm", some "0xdeadbeef", none⟩).2.2.1
      rfl rfl rfl).1,
   ((createSignerFromConfig_spec
      ⟨some "evm",
       some "0xaaaaaaaaaaaaaaaaaaaaaaaaaaaaaaaaaaaaaaaaaaaaaaaaaaaaaaaaaaaaaaaa",
       none⟩).2.2.2
      (Signer.evm "0xaaaaaaaaaaaaaaaaaaaaaaaaaaaaaaaaaaaaaaaaaaaaaaaaaaaaaaaaaaaaaaaa"
        EVM_MAINNET_CHAIN_ID) rfl).2.2⟩

/-- C9: validateWalletConfig accepts a pair only when the wallet type is
"svm" or "evm", and consequently the trailing unknown-wallet-type throw
of createSignerFromConfig is unreachable: no configuration makes it
return that error. -/
theorem createSignerFromConfig_unknown_unreachable :
    (∀ walletType privateKey, validateWalletConfig walletType privateKey = true →
        walletType = "svm" ∨ walletType = "evm") ∧
    (∀ config, isUnknownWalletTypeError (createSignerFromConfig config) = false) := by
  constructor
  · exact validateWalletConfig_walletType
  · intro config
    cases hwt : jsFalsy config.walletType with
    | true => simp [createSignerFromConfig, hwt, isUnknownWalletTypeError]
    | false =>
      cases hpk : jsFalsy config.privateKey with
      | true => simp [createSignerFromConfig, hwt, hpk, isUnknownWalletTypeError]
      | false =>
        cases hval : validateWalletConfig (config.walletType.getD "")
            (config.privateKey.getD "") with
        | false =>
          simp [createSignerFromConfig, hwt, hpk, hval, isUnknownWalletTypeError]
        | true =>
          rcases validateWalletConfig_walletType _ _ hval with h | h <;>
            rw [h] at hval
          · cases hch : jsFalsy config.chainId with
            | true =>
              cases hsig : createSvmSigner (config.privateKey.getD "") none with
              | none =>
                simp [createSignerFromConfig, hwt, hpk, hval, h, hch, hsig,
                  isUnknownWalletTypeError]
              | some s =>
                simp [createSignerFromConfig, hwt, hpk, hval, h, hch, hsig,
                  isUnknownWalletTypeError]
            | false =>
              obtain ⟨c, hc⟩ := getChainIdForWallet_known "svm"
                (config.chainId.getD "") (Or.inl rfl)
              cases hsig : createSvmSigner (config.privateKey.getD "") (some c) with
              | none =>
                simp [createSignerFromConfig, hwt, hpk, hval, h, hch, hc, hsig,
                  Except.map, isUnknownWalletTypeError]
              | some s =>
                simp [createSignerFromConfig, hwt, hpk, hval, h, hch, hc, hsig,
                  Except.map, isUnknownWalletTypeError]
          · cases hch : jsFalsy config.chainId with
            | true =>
              simp [createSignerFromConfig, hwt, hpk, hval, h, hch,
                isUnknownWalletTypeError]
            | false =>
              obtain ⟨c, hc⟩ := getChainIdForWallet_known "evm"
                (config.chainId.getD "") (Or.inr rfl)
              simp [createSignerFromConfig, hwt, hpk, hval, h, hch, hc,
                Except.map, isUnknownWalletTypeError]

theorem createSignerFromConfig_unknown_unreachable_witness :
    validateWalletConfig "evm"
      "0xaaaaaaaaaaaaaaaaaaaaaaaaaaaaaaaaaaaaaaaaaaaaaaaaaaaaaaaaaaaaaaaa" = true ∧
    (("evm" : String) = "svm" ∨ ("evm" : String) = "evm") ∧
    isUnknownWalletTypeError
      (createSignerFromConfig ⟨some "bogus", some "key", none⟩) = false :=
  ⟨by decide,
   createSignerFromConfig_unknown_unreachable.1 "evm"
     "0xaaaaaaaaaaaaaaaaaaaaaaaaaaaaaaaaaaaaaaaaaaaaaaaaaaaaaaaaaaaaaaaa" (by decide),
   createSignerFromConfig_unknown_unreachable.2 ⟨some "bogus", some "key", none⟩⟩

/-- C6: getSetting returns the string coercion of the runtime store value
whenever that value is neither undefined nor null; when it is undefined
or null it falls back to the environment variable of the same name; and
when that is also unset it returns the supplied default unchanged. -/
theorem getSetting_spec (settings : String → Option JsValue)
    (env : String → Option String) (key : String) (defaultValue : Option String) :
    (∀ v, settings key = some v → v ≠ JsValue.jsNull →
        getSetting ⟨settings, env⟩ key defaultValue = some (jsToString v)) ∧
    ((settings key = none ∨ settings key = some JsValue.jsNull) →
        ∀ s, env key = some s → getSetting ⟨settings, env⟩ key defaultValue = some s) ∧
    ((settings key = none ∨ settings key = some JsValue.jsNull) → env key = none →
        getSetting ⟨settings, env⟩ key defaultValue = defaultValue) := by
  refine ⟨?_, ?_, ?_⟩
  · intro v hv hnull
    simp [getSetting, hv, hnull]
  · rintro (h | h) s hs <;> simp [getSetting, h, hs]
  · rintro (h | h) he <;> simp [getSetting, h, he]

theorem getSetting_spec_witness :
    getSetting ⟨fun _ => some (JsValue.num 42), fun _ => some "fromenv"⟩ "K"
      (some "dflt") = some (jsToString (JsValue.num 42)) ∧
    getSetting ⟨fun _ => some JsValue.jsNull, fun _ => some "fromenv"⟩ "K"
      (some "dflt") = some "fromenv" ∧
    getSetting ⟨fun _ => none, fun _ => none⟩ "K" (some "dflt") = some "dflt" :=
  ⟨(getSetting_spec (fun _ => some (JsValue.num 42)) (fun _ => some "fromenv") "K"
      (some "dflt")).1 (JsValue.num 42) rfl (by decide),
   (getSetting_spec (fun _ => some JsValue.jsNull) (fun _ => some "fromenv") "K"
      (some "dflt")).2.1 (Or.inr rfl) "fromenv" rfl,
   (getSetting_spec (fun _ => none) (fun _ => none) "K" (some "dflt")).2.2
      (Or.inl rfl) rfl⟩

/-- C7: getSignerConfig returns undefined exactly when the resolved wallet
type or the resolved private key is missing (falsy), and otherwise packs
the three resolved values unchanged, with no private-key format
validation performed. -/
theorem getSignerConfig_spec (rt : RuntimeState) :
    (getSignerConfig rt = none ↔
      (jsFalsy (getWalletType rt) = true ∨ jsFalsy (getPrivateKey rt) = true)) ∧
    (jsFalsy (getWalletType rt) = false → jsFalsy (getPrivateKey rt) = false →
        getSignerConfig rt = some { walletType := getWalletType rt,
                                    privateKey := getPrivateKey rt,
                                    chainId := getChainId rt }) := by
  constructor
  · simp only [getSignerConfig]
    split
    · next h => exact ⟨fun _ => h, fun _ => rfl⟩
    · next h => exact ⟨fun hx => Option.noConfusion hx, fun hx => absurd hx h⟩
  · intro h1 h2
    simp [getSignerConfig, h1, h2]

theorem getSignerConfig_spec_witness :
    jsFalsy (getWalletType sampleRuntimeBadKey) = false ∧
    jsFalsy (getPrivateKey sampleRuntimeBadKey) = false ∧
    validateWalletConfig "evm" "not-a-valid-key" = false ∧
    getSignerConfig sampleRuntimeBadKey =
      some { walletType := getWalletType sampleRuntimeBadKey,
             privateKey := getPrivateKey sampleRuntimeBadKey,
             chainId := getChainId sampleRuntimeBadKey } :=
  ⟨rfl, rfl, by decide, (getSignerConfig_spec sampleRuntimeBadKey).2 rfl rfl⟩

/-- Characterization of getWalletType: it returns the resolved setting
exactly when that setting is the literal "svm" or "evm", and undefined
otherwise. -/
theorem getWalletType_eq (rt : RuntimeState) :
    getWalletType rt =
      if getSetting rt "AIMO_WALLET_TYPE" none = some "svm" ∨
          getSetting rt "AIMO_WALLET_TYPE" none = some "evm" then
        getSetting rt "AIMO_WALLET_TYPE" none
      else none := by
  unfold getWalletType
  cases hset : getSetting rt "AIMO_WALLET_TYPE" none with
  | none => simp [jsFalsy]
  | some w =>
    by_cases hsvm : w = "svm"
    · subst hsvm; simp [jsFalsy]
    · by_cases hevm : w = "evm"
      · subst hevm; simp [jsFalsy]
      · by_cases hempty : w = ""
        · subst hempty; simp [jsFalsy]
        · simp [jsFalsy, hsvm, hevm, hempty]

/-- C8: getWalletType returns "svm" or "evm" exactly when the resolved
AIMO_WALLET_TYPE setting is that literal string; an absent setting or any
other string (empty or misspelled) yields undefined, and the function is
total (never throws). -/
theorem getWalletType_spec (rt : RuntimeState) :
    (getWalletType rt = some "svm" ↔
      getSetting rt "AIMO_WALLET_TYPE" none = some "svm") ∧
    (getWalletType rt = some "evm" ↔
      getSetting rt "AIMO_WALLET_TYPE" none = some "evm") ∧
    (∀ w, getWalletType rt = some w → w = "svm" ∨ w = "evm") ∧
    (getSetting rt "AIMO_WALLET_TYPE" none = none → getWalletType rt = none) ∧
    (∀ w, getSetting rt "AIMO_WALLET_TYPE" none = some w → w ≠ "svm" → w ≠ "evm" →
        getWalletType rt = none) := by
  have heq := getWalletType_eq rt
  refine ⟨?_, ?_, ?_, ?_, ?_⟩
  · rw [heq]
    split
    · next h => exact Iff.rfl
    · next h =>
      exact ⟨fun hx => Option.noConfusion hx, fun hx => absurd (Or.inl hx) h⟩
  · rw [heq]
    split
    · next h => exact Iff.rfl
    · next h =>
      exact ⟨fun hx => Option.noConfusion hx, fun hx => absurd (Or.inr hx) h⟩
  · intro w hw
    rw [heq] at hw
    split at hw
    · next h =>
      rcases h with h | h
      · rw [hw] at h; exact Or.inl (Option.some.inj h)
      · rw [hw] at h; exact Or.inr (Option.some.inj h)
    · exact Option.noConfusion hw
  · intro h
    rw [heq, h]
    simp
  · intro w hw h1 h2
    rw [heq, hw]
    simp [h1, h2]

theorem getWalletType_spec_witness :
    getWalletType sampleRuntimeSvmType = some "svm" ∧
    ((("svm" : String) = "svm") ∨ (("svm" : String) = "evm")) ∧
    getWalletType sampleRuntimeBadType = none :=
  ⟨(getWalletType_spec sampleRuntimeSvmType).1.mpr rfl,
   (getWalletType_spec sampleRuntimeSvmType).2.2.1 "svm"
     ((getWalletType_spec sampleRuntimeSvmType).1.mpr rfl),
   (getWalletType_spec sampleRuntimeBadType).2.2.2.2 "evmx" rfl (by decide) (by decide)⟩

/-- C10: getChainId normalizes an absent or empty AIMO_CHAIN_ID setting to
undefined; a SignerConfig built by getSignerConfig carries exactly that
normalized chain id, so its chain id is never the empty string and chain
resolution is never invoked on the empty string through this path. -/
theorem getChainId_empty_spec (rt : RuntimeState) :
    ((getSetting rt "AIMO_CHAIN_ID" none = none ∨
      getSetting rt "AIMO_CHAIN_ID" none = some "") → getChainId rt = none) ∧
    (∀ cfg, getSignerConfig rt = some cfg → cfg.chainId = getChainId rt) ∧
    (∀ cfg s, getSignerConfig rt = some cfg → cfg.chainId = some s →
        (s == "") = false) := by
  refine ⟨?_, ?_, ?_⟩
  · rintro (h | h) <;> simp [getChainId, h, jsFalsy]
  · intro cfg h
    simp only [getSignerConfig] at h
    split at h
    · exact Option.noConfusion h
    · obtain rfl := Option.some.inj h
      rfl
  · intro cfg s h hs
    simp only [getSignerConfig] at h
    split at h
    · exact Option.noConfusion h
    · obtain rfl := Option.some.inj h
      simp only [getChainId] at hs
      split at hs
      · exact Option.noConfusion hs
      · next hfalsy =>
        rw [hs] at hfalsy
        simpa [jsFalsy] using hfalsy

theorem getChainId_empty_spec_witness :
    getChainId sampleRuntimeChainEmpty = none ∧
    (SignerConfig.mk (some "svm") (some "anykey") none).chainId =
      getChainId sampleRuntimeChainEmpty ∧
    (("devnet" == "") = false) :=
  ⟨(getChainId_empty_spec sampleRuntimeChainEmpty).1 (Or.inr rfl),
   (getChainId_empty_spec sampleRuntimeChainEmpty).2.1
     ⟨some "svm", some "anykey", none⟩ rfl,
   (getChainId_empty_spec sampleRuntimeChainDevnet).2.2
     ⟨some "svm", some "anykey", some "devnet"⟩ "devnet" rfl rfl⟩

theorem getChainIdForWallet_svm_spec_witness :
    containsSubstr (toLowerString "devnet") "devnet" = true ∧
    getChainIdForWallet "svm" "devnet" = Except.ok SOLANA_DEVNET_CHAIN_ID ∧
    containsSubstr (toLowerString "testnet") "devnet" = false ∧
    getChainIdForWallet "svm" "testnet" = Except.ok SOLANA_MAINNET_CHAIN_ID :=
  ⟨by decide,
   getChainIdForWallet_svm_spec.1 "devnet" (by decide),
   by decide,
   getChainIdForWallet_svm_spec.2.1 "testnet" (by decide)⟩

end AimoRouter
